import Mathlib

/-!
# VAS discovery / validation core — verification development

Shallow embedding of `app/services/discovery.py` (NetworkDiscoveryService)
and `app/services/validation.py` (RTSPValidationService) together with
proofs about them.  External effects (subprocesses, HTTP, ffprobe) are
modelled as oracle parameters; machine-level details (event loop, real
time) are abstracted as noted at each definition.
-/

namespace VAS

/-! ## Python string primitives

`pyHasSub pat s` models Python `pat in s` (substring containment),
`splitOnce pat s` models `s.split(pat, 1)` restricted to the case used by
the code (returns the pieces around the first occurrence of `pat`, or
`none` when `pat` does not occur), and `pyReplace` models
`s.replace(old, new)` (replace every occurrence, scanning left to right).
All operate on `List Char` to keep proofs by structural recursion.
-/

def pyHasSub (pat : List Char) : List Char → Bool
  | [] => pat.isEmpty
  | c :: rest => pat.isPrefixOf (c :: rest) || pyHasSub pat rest

def splitOnce (pat : List Char) : List Char → Option (List Char × List Char)
  | [] => none
  | c :: rest =>
    if pat.isPrefixOf (c :: rest) then some ([], (c :: rest).drop pat.length)
    else
      match splitOnce pat rest with
      | some (pre, post) => some (c :: pre, post)
      | none => none

def pyReplace (old new : List Char) : List Char → List Char
  | [] => []
  | c :: rest =>
    if old ≠ [] ∧ old.isPrefixOf (c :: rest) then
      new ++ pyReplace old new ((c :: rest).drop old.length)
    else
      c :: pyReplace old new rest
termination_by s => s.length
decreasing_by
  · rename_i h
    have hl : 0 < old.length := List.length_pos.mpr h.1
    simp only [List.length_drop, List.length_cons]
    omega
  · simp

/-- Python `str` containment lifted to `String`. -/
def pyIn (pat s : String) : Bool := pyHasSub pat.data s.data

/-- Python `int(s)`: an optional sign followed by at least one ASCII digit
(whitespace/underscore forms never occur in the frame-rate strings this
code parses). `none` models the `ValueError` raised on anything else. -/
def pyInt (s : List Char) : Option Int :=
  let digits (l : List Char) : Option Nat :=
    if l = [] then none
    else if l.all (·.isDigit) then
      some (l.foldl (fun acc c => acc * 10 + (c.toNat - 48)) 0)
    else none
  match s with
  | '-' :: rest => (digits rest).map (fun n => -(n : Int))
  | '+' :: rest => (digits rest).map (fun n => (n : Int))
  | l => (digits l).map (fun n => (n : Int))

/-- `num, den = map(int, s.split("/"))` from `_calculate_fps`: succeeds
iff the split has exactly two pieces and both parse as integers; a third
piece or a non-integer piece raises `ValueError` in Python, modelled as
`none`. -/
def parseRational (s : List Char) : Option (Int × Int) :=
  match splitOnce ['/'] s with
  | none => none
  | some (pre, post) =>
    if pyHasSub ['/'] post then none
    else
      match pyInt pre, pyInt post with
      | some n, some d => some (n, d)
      | _, _ => none

/-- Python `round` on the exact rational `n / d` (`d > 0`): round half to
even.  (Python computes `n / d` in binary floating point first; for the
magnitudes of real frame rates the two agree.) -/
def pyRound (n d : Int) : Int :=
  let f := Int.fdiv n d
  let r := n - f * d
  if 2 * r < d then f
  else if 2 * r > d then f + 1
  else if f % 2 = 0 then f else f + 1

/-- Python truthiness of an optional string (`if x:` is false for `None`
and for the empty string). -/
def optTruthy : Option String → Bool
  | none => false
  | some s => !(s == "")

/-! ## RTSPValidationService (`app/services/validation.py`) -/

/-- One entry of the ffprobe `streams` array, restricted to the keys the
service reads.  Absent keys are `none` (Python `dict.get` returns `None`
or the supplied default). -/
structure StreamEntry where
  codec_type : Option String
  codec_name : Option String
  width : Option Nat
  height : Option Nat
  r_frame_rate : Option String
  avg_frame_rate : Option String
deriving DecidableEq, Repr

/-- Result dictionary of `_probe_rtsp_stream`. -/
structure ProbeResult where
  is_valid : Bool
  resolution : Option String
  codec : Option String
  fps : Option Int
  error : Option String
deriving DecidableEq, Repr

/-- Result dictionary of `validate_rtsp_stream`. -/
structure ValResult where
  ip_address : String
  is_valid : Bool
  rtsp_url : Option String
  resolution : Option String
  codec : Option String
  fps : Option Int
  error_message : Option String
deriving DecidableEq, Repr

/-- One frame-rate field inside `_calculate_fps`: either it produces a
value (`value`), or control falls through to the next field
(`fallthrough`: field absent, empty, without `"/"`, or denominator ≤ 0),
or a `ValueError` aborts the whole function (`abort`: `"/"` present but
the pieces do not unpack into two integers). -/
inductive FpsStep where
  | value (n : Int)
  | fallthrough
  | abort
deriving DecidableEq, Repr

def fpsFromField : Option String → FpsStep
  | none => .fallthrough
  | some s =>
    if s = "" then .fallthrough
    else if pyHasSub ['/'] s.data then
      match parseRational s.data with
      | some (n, d) => if 0 < d then .value (pyRound n d) else .fallthrough
      | none => .abort
    else .fallthrough

/-- `RTSPValidationService._calculate_fps` (validation.py:178-200): try
`r_frame_rate`, then `avg_frame_rate`; an exception anywhere returns
`None`. -/
def calculate_fps (vs : StreamEntry) : Option Int :=
  match fpsFromField vs.r_frame_rate with
  | .value n => some n
  | .abort => none
  | .fallthrough =>
    match fpsFromField vs.avg_frame_rate with
    | .value n => some n
    | _ => none

/-- `RTSPValidationService._add_authentication` (validation.py:92-97). -/
def add_authentication (url username password : String) : String :=
  match splitOnce "://".data url.data with
  | some (protocol, rest) =>
    ⟨protocol ++ "://".data ++ username.data ++ [':'] ++ password.data ++ ['@'] ++ rest⟩
  | none => url

/-- `RTSPValidationService._generate_common_rtsp_urls` (validation.py:71-90). -/
def generate_common_rtsp_urls (ip_address : String) : List String :=
  [ "rtsp://" ++ ip_address ++ ":554/stream1",
    "rtsp://" ++ ip_address ++ ":554/live",
    "rtsp://" ++ ip_address ++ "/live1s1.sdp",
    "rtsp://" ++ ip_address ++ ":554/live1s1.sdp",
    "rtsp://" ++ ip_address ++ ":554/cam/realmonitor",
    "rtsp://" ++ ip_address ++ ":554/axis-media/media.amp",
    "rtsp://" ++ ip_address ++ ":554/onvif1",
    "rtsp://" ++ ip_address ++ ":554/h264Preview_01_main",
    "rtsp://" ++ ip_address ++ ":554/live/ch0",
    "rtsp://" ++ ip_address ++ ":554/streaming/channels/101",
    "rtsp://" ++ ip_address ++ ":554/11",
    "rtsp://" ++ ip_address ++ ":554/1",
    "rtsp://" ++ ip_address ++ ":8554/stream1",
    "rtsp://" ++ ip_address ++ ":8554/live",
    "rtsp://" ++ ip_address ++ ":8554/cam/realmonitor" ]

/-- Metadata-extraction stage of `_probe_rtsp_stream`
(validation.py:134-160), applied once the ffprobe JSON has parsed and
exited zero: find the first stream whose `codec_type` is `"video"`,
substituting `"unknown"` for missing width/height/codec_name.
The subprocess/IO stages around it are modelled by the callers below
feeding this function, or a whole-probe oracle, as appropriate. -/
def findVideo : List StreamEntry → Option StreamEntry
  | [] => none
  | s :: rest => if s.codec_type = some "video" then some s else findVideo rest

/-- `f"{video_stream.get('width', 'unknown')}"`: a JSON number renders in
decimal, a missing key renders the default string. -/
def renderDim : Option Nat → String
  | some n => toString n
  | none => "unknown"

def parseProbeStreams (streams : List StreamEntry) : ProbeResult :=
  match findVideo streams with
  | none => ⟨false, none, none, none, some "No video stream found"⟩
  | some vs =>
    ⟨true,
     some (renderDim vs.width ++ "x" ++ renderDim vs.height),
     some (vs.codec_name.getD "unknown"),
     calculate_fps vs,
     none⟩

/-- `RTSPValidationService.validate_rtsp_stream` (validation.py:14-69),
with `_probe_rtsp_stream` abstracted as a deterministic oracle
`probe : url → ProbeResult` (the real `_probe_rtsp_stream` catches every
exception and returns a result dictionary, so the oracle is total).
Besides the result, the functions return the number of probe invocations,
instrumenting the sweep the way the spec's property tests do.

`tryUrls` is the inner `for url in urls_to_test` loop of one attempt;
`runAttempts` the outer `for attempt in range(self.retries)` loop. -/
def tryUrls (probe : String → ProbeResult) (ip : String)
    (auth : Option (String × String)) : List String → Option ValResult × Nat
  | [] => (none, 0)
  | url :: rest =>
    let url' := match auth with
      | some (u, p) => add_authentication url u p
      | none => url
    let r := probe url'
    if r.is_valid then
      (some ⟨ip, true, some url', r.resolution, r.codec, r.fps, none⟩, 1)
    else
      let (res, n) := tryUrls probe ip auth rest
      (res, n + 1)

def runAttempts (probe : String → ProbeResult) (ip : String)
    (auth : Option (String × String)) (urls : List String) :
    Nat → Option ValResult × Nat
  | 0 => (none, 0)
  | k + 1 =>
    match tryUrls probe ip auth urls with
    | (some r, n) => (some r, n)
    | (none, n) =>
      let (res, m) := runAttempts probe ip auth urls k
      (res, n + m)

def validate_rtsp_stream (probe : String → ProbeResult) (retries : Nat)
    (ip_address : String) (username password rtsp_url : Option String) :
    ValResult × Nat :=
  let urls := if optTruthy rtsp_url then [rtsp_url.getD ""]
              else generate_common_rtsp_urls ip_address
  let auth := if optTruthy username && optTruthy password then
      some (username.getD "", password.getD "")
    else none
  match runAttempts probe ip_address auth urls retries with
  | (some r, n) => (r, n)
  | (none, n) =>
    (⟨ip_address, false, none, none, none, none,
      some "All validation attempts failed"⟩, n)

/-- `HealthVerdict` status strings of `validate_device_health`. -/
inductive HealthStatus where
  | ONLINE
  | OFFLINE
  | UNREACHABLE
deriving DecidableEq, Repr

structure DeviceInfo where
  ip_address : Option String
  rtsp_url : Option String
deriving DecidableEq, Repr

/-- `RTSPValidationService.validate_device_health` (validation.py:202-227)
with `_is_device_reachable` and `validate_rtsp_stream` as oracles; the
third component counts invocations of the stream validator.  The
validator oracle takes the ip and the optional explicit `rtsp_url`
argument of the call. -/
def validate_device_health (reachable : String → Bool)
    (validator : String → Option String → ValResult) (d : DeviceInfo) :
    HealthStatus × Option String × Nat :=
  if !optTruthy d.ip_address then
    (.UNREACHABLE, some "No IP address provided", 0)
  else
    let ip := d.ip_address.getD ""
    if !reachable ip then
      (.UNREACHABLE, some "Device not reachable", 0)
    else if optTruthy d.rtsp_url then
      let r := validator ip d.rtsp_url
      if r.is_valid then (.ONLINE, none, 1)
      else (.OFFLINE, r.error_message, 1)
    else
      let r := validator ip none
      if r.is_valid then (.ONLINE, none, 1)
      else (.OFFLINE, some "No valid RTSP stream found", 1)

/-! ## NetworkDiscoveryService (`app/services/discovery.py`) -/

/-! ### Subnet host enumeration (discovery.py:50-51)

`ipaddress.IPv4Network(subnet, strict=False).hosts()`.  An IPv4 address
is a `Nat < 2^32`; with `strict=False` the host bits of the given address
are masked off.  Per the `ipaddress` semantics, `hosts()` yields the
addresses strictly between the network and broadcast addresses, except
that a /31 yields both of its addresses and a /32 yields its single
address. -/

def blockSize (p : Nat) : Nat := 2 ^ (32 - p)

def netAddr (a p : Nat) : Nat := a / blockSize p * blockSize p

def broadcastAddr (a p : Nat) : Nat := netAddr a p + blockSize p - 1

def hosts (a p : Nat) : List Nat :=
  if 31 ≤ p then List.range' (netAddr a p) (blockSize p)
  else List.range' (netAddr a p + 1) (blockSize p - 2)

/-- Dotted-quad helper for concrete addresses. -/
def mkIp (a b c d : Nat) : Nat := ((a * 256 + b) * 256 + c) * 256 + d

/-! ### DiscoveryCoordinator: `scan_subnets` (discovery.py:17-45)

`_scan_subnet` may internally raise (modelled as `Except.error`); the
coordinator gathers results with `return_exceptions=True` and stores an
empty list for a subnet whose task raised (discovery.py:39-43).  The
results dictionary is a Python `dict` built by in-order assignment:
insertion order is kept and a repeated key overwrites its value in
place. -/

abbrev Device := String × List Nat  -- ip with its open ports; payload shape is irrelevant here

def dictInsert (k : String) (v : List Device) :
    List (String × List Device) → List (String × List Device)
  | [] => [(k, v)]
  | (k', v') :: rest =>
    if k' = k then (k, v) :: rest else (k', v') :: dictInsert k v rest

def dictLookup (k : String) : List (String × List Device) → Option (List Device)
  | [] => none
  | (k', v) :: rest => if k' = k then some v else dictLookup k rest

/-- The per-subnet scan result, exceptions converted (discovery.py:39-43). -/
def subnetResult (scanSub : String → Except String (List Device))
    (subnet : String) : List Device :=
  match scanSub subnet with
  | .error _ => []
  | .ok ds => ds

def scan_subnets (scanSub : String → Except String (List Device))
    (subnets : List String) : List (String × List Device) :=
  subnets.foldl (fun acc s => dictInsert s (subnetResult scanSub s) acc) []

/-! ### Per-host scan: `_scan_single_ip` (discovery.py:84-115)

Oracles: `reachable` for `_is_ip_reachable`, `portScan` for
`_check_rtsp_ports`, `hostname` for `_get_hostname`, `vendor` for
`_identify_vendor`.  The outcome records the device dictionary (or `none`
when the host contributes nothing — the code returns `{}`, filtered out
by `_scan_subnet`) and how many times the port scanner and the vendor
identifier ran, instrumenting the calls the way the spec's property
tests do.  `discovered_at` (wall-clock time) is not modelled. -/

structure DeviceRecord where
  ip_address : String
  hostname : String
  rtsp_ports : List Nat
  vendor : String
  rtsp_url : Option String
deriving DecidableEq, Repr

structure ScanOutcome where
  device : Option DeviceRecord
  portScanCalls : Nat
  vendorCalls : Nat
deriving DecidableEq, Repr

def scan_single_ip (reachable : String → Bool) (portScan : String → List Nat)
    (hostname : String → String) (vendor : String → Nat → String × Option String)
    (ip : String) : ScanOutcome :=
  if !reachable ip then ⟨none, 0, 0⟩
  else
    let ports := portScan ip
    match ports with
    | [] => ⟨none, 1, 0⟩
    | p :: rest =>
      let hn := hostname ip
      let v := vendor ip p
      ⟨some ⟨ip, hn, p :: rest, v.1, v.2⟩, 1, 1⟩

/-! ### Vendor identification: `_identify_vendor` (discovery.py:162-201)

The aiohttp GET is an oracle `check : probe-url → Option Nat` returning
the response status, or `none` when the request raises (connection error,
timeout).  The probed URL is the candidate with `rtsp://` rewritten to
`http://` and `/stream1` to `/` (discovery.py:186). -/

def common_urls (ip : String) (port : Nat) : List String :=
  [ "rtsp://" ++ ip ++ ":" ++ toString port ++ "/stream1",
    "rtsp://" ++ ip ++ ":" ++ toString port ++ "/live",
    "rtsp://" ++ ip ++ ":" ++ toString port ++ "/cam/realmonitor",
    "rtsp://" ++ ip ++ ":" ++ toString port ++ "/axis-media/media.amp",
    "rtsp://" ++ ip ++ ":" ++ toString port ++ "/onvif1",
    "rtsp://" ++ ip ++ ":" ++ toString port ++ "/h264Preview_01_main",
    "rtsp://" ++ ip ++ ":" ++ toString port ++ "/live/ch0" ]

def vendor_patterns : List (String × List String) :=
  [ ("Hikvision", ["/h264Preview_", "/live/ch"]),
    ("Dahua", ["/cam/realmonitor"]),
    ("Axis", ["/axis-media/"]),
    ("Generic", ["/stream", "/live", "/onvif"]) ]

def probeTransform (url : String) : String :=
  ⟨pyReplace "/stream1".data "/".data (pyReplace "rtsp://".data "http://".data url.data)⟩

/-- First vendor in table order one of whose patterns occurs in the URL
(the `for vendor, patterns in vendor_patterns.items()` loop,
discovery.py:191-196). -/
def matchVendor (url : String) : Option String :=
  vendor_patterns.findSome? fun vp =>
    if vp.2.any (fun pat => pyIn pat url) then some vp.1 else none

def identify_vendor (check : String → Option Nat) :
    List String → String × Option String
  | [] => ("Unknown", none)
  | url :: rest =>
    match check (probeTransform url) with
    | some st =>
      if st < 500 then
        match matchVendor url with
        | some v => (v, some url)
        | none => ("Unknown", some url)
      else identify_vendor check rest
    | none => identify_vendor check rest

/-- Modelled from the spec (§4.4): vendor chosen by the longest (most
specific) matching pattern across the whole table, ties broken by table
order.  Stated for comparison with the code's first-match rule. -/
def specLongestVendor (url : String) : Option String :=
  let cands := vendor_patterns.flatMap fun vp =>
    vp.2.filterMap fun pat => if pyIn pat url then some (vp.1, pat) else none
  match cands with
  | [] => none
  | c :: cs =>
    some (cs.foldl (fun best cand =>
      if cand.2.length > best.2.length then cand else best) c).1

/-! ### Semaphore-bounded fan-out: `_scan_subnet` / `_scan_ip_with_semaphore`
(discovery.py:53-82)

`asyncio.Semaphore(self.max_concurrent)` gates the per-host tasks: a task
acquires a permit before probing (`async with semaphore`), probes, and
releases on exit.  The event loop is modelled as a small-step transition
system over the phases of the per-host tasks; `acquire` fires only when a
permit is available, `release` is unconditional on task completion.  A
"host-level probe chain in flight" is a task in the `running` phase. -/

inductive TaskPhase where
  | waiting
  | running
  | done
deriving DecidableEq, Repr

structure ScanState where
  sem : Nat
  tasks : List TaskPhase
deriving DecidableEq, Repr

inductive ScanStep : ScanState → ScanState → Prop where
  | acquire (s : ScanState) (i : Nat)
      (h : s.tasks.get? i = some .waiting) (hs : 0 < s.sem) :
      ScanStep s ⟨s.sem - 1, s.tasks.set i .running⟩
  | release (s : ScanState) (i : Nat)
      (h : s.tasks.get? i = some .running) :
      ScanStep s ⟨s.sem + 1, s.tasks.set i .done⟩

/-- `_scan_subnet`'s initial configuration: a fresh semaphore with
`max_concurrent` permits and one waiting task per usable host address. -/
def initScanState (limit n : Nat) : ScanState :=
  ⟨limit, List.replicate n .waiting⟩

def isRunning : TaskPhase → Bool
  | .running => true
  | _ => false

def runningCount (ts : List TaskPhase) : Nat := ts.countP isRunning

/-! ## Auxiliary definitions used by the statements below -/

/-- The result dictionary `_probe_rtsp_stream` returns when
`asyncio.wait_for` times out (validation.py:162-166); as a probe oracle
this is the "StreamProbe stub that always times out" of the spec's
property list. -/
def timeoutProbe : String → ProbeResult :=
  fun _ => ⟨false, none, none, none, some "Timeout during stream validation"⟩

/-- An error message "indicates timeout" when it contains the word
timeout in either capitalisation. -/
def mentionsTimeout (s : String) : Bool := pyIn "imeout" s

/-- Modelled from the spec (§4.7 FPS computation): parse the primary
rational field and fall back to the secondary field whenever the primary
is absent or unparseable; used only to exhibit where the code departs
from this reading. -/
def specFpsField : Option String → Option Int
  | none => none
  | some s =>
    match parseRational s.data with
    | some (n, d) => if 0 < d then some (pyRound n d) else none
    | none => none

def specFps (vs : StreamEntry) : Option Int :=
  (specFpsField vs.r_frame_rate).orElse fun _ => specFpsField vs.avg_frame_rate

/-- A candidate URL passes the lightweight HTTP check when the GET on its
transformed form returns a status below 500 (discovery.py:189). -/
def checkOk (check : String → Option Nat) (url : String) : Bool :=
  match check (probeTransform url) with
  | some st => decide (st < 500)
  | none => false

/-! ## Shared lemmas -/

theorem countP_set (p : TaskPhase → Bool) (l : List TaskPhase) (i : Nat)
    (a b : TaskPhase) (h : l.get? i = some a) :
    (l.set i b).countP p + (if p a then 1 else 0) =
      l.countP p + (if p b then 1 else 0) := by
  induction l generalizing i with
  | nil => simp at h
  | cons c rest ih =>
    cases i with
    | zero =>
      simp only [List.get?] at h
      cases h
      simp only [List.set, List.countP_cons]
      omega
    | succ j =>
      simp only [List.get?] at h
      simp only [List.set, List.countP_cons]
      have := ih j h
      omega

theorem scanStep_invariant {s t : ScanState} (hst : ScanStep s t) :
    runningCount t.tasks + t.sem = runningCount s.tasks + s.sem := by
  cases hst with
  | acquire i h hs =>
    have hc := countP_set isRunning s.tasks i .waiting .running h
    simp only [isRunning] at hc
    simp at hc
    simp only [runningCount]
    omega
  | release i h =>
    have hc := countP_set isRunning s.tasks i .running .done h
    simp only [isRunning] at hc
    simp at hc
    simp only [runningCount]
    omega

theorem runningCount_replicate_waiting (n : Nat) :
    runningCount (List.replicate n .waiting) = 0 := by
  rw [runningCount, List.countP_eq_zero]
  intro a ha
  rw [List.eq_of_mem_replicate ha]
  decide

theorem findVideo_of_mem (streams : List StreamEntry)
    (h : ∃ s ∈ streams, s.codec_type = some "video") :
    ∃ vs, findVideo streams = some vs := by
  induction streams with
  | nil => simp at h
  | cons s rest ih =>
    by_cases hs : s.codec_type = some "video"
    · exact ⟨s, by simp [findVideo, hs]⟩
    · obtain ⟨w, hw, hwv⟩ := h
      rcases List.mem_cons.mp hw with rfl | hw'
      · exact absurd hwv hs
      · obtain ⟨vs, hvs⟩ := ih ⟨w, hw', hwv⟩
        exact ⟨vs, by simp [findVideo, hs, hvs]⟩

theorem tryUrls_all_invalid (probe : String → ProbeResult) (ip : String)
    (auth : Option (String × String)) (urls : List String)
    (h : ∀ u, (probe u).is_valid = false) :
    tryUrls probe ip auth urls = (none, urls.length) := by
  induction urls with
  | nil => rfl
  | cons u rest ih => simp [tryUrls, h, ih]

theorem runAttempts_all_invalid (probe : String → ProbeResult) (ip : String)
    (auth : Option (String × String)) (urls : List String) (k : Nat)
    (h : ∀ u, (probe u).is_valid = false) :
    runAttempts probe ip auth urls k = (none, k * urls.length) := by
  induction k with
  | zero => simp [runAttempts]
  | succ j ih =>
    simp [runAttempts, tryUrls_all_invalid probe ip auth urls h, ih,
      Nat.succ_mul, Nat.add_comm]

theorem splitOnce_scheme (scheme rest : List Char) (h : ':' ∉ scheme) :
    splitOnce [':', '/', '/'] (scheme ++ [':', '/', '/'] ++ rest) = some (scheme, rest) := by
  induction scheme with
  | nil => simp [splitOnce, List.isPrefixOf]
  | cons c cs ih =>
    have hc : c ≠ ':' := fun hc => h (by simp [hc])
    have hcs : ':' ∉ cs := fun hm => h (List.mem_cons_of_mem c hm)
    have hpre : ([':', '/', '/'] : List Char).isPrefixOf
        (c :: (cs ++ [':', '/', '/'] ++ rest)) = false := by
      simp only [List.isPrefixOf, Bool.and_eq_false_iff, beq_eq_false_iff_ne, ne_eq]
      exact Or.inl fun hcc => hc hcc.symm
    simp only [List.cons_append, List.append_eq, splitOnce, hpre, Bool.false_eq_true, if_false]
    rw [ih hcs]

theorem dictLookup_dictInsert (q k : String) (v : List Device)
    (l : List (String × List Device)) :
    dictLookup q (dictInsert k v l) = if k = q then some v else dictLookup q l := by
  induction l with
  | nil => simp [dictInsert, dictLookup]
  | cons p rest ih =>
    obtain ⟨k', v'⟩ := p
    by_cases hk : k' = k
    · subst hk
      by_cases hq : k' = q <;> simp [dictInsert, dictLookup, hq]
    · by_cases hq : k' = q
      · subst hq
        have : ¬k = k' := fun hh => hk hh.symm
        simp [dictInsert, dictLookup, hk, this]
      · simp [dictInsert, dictLookup, hk, hq, ih]

theorem scan_subnets_lookup_aux (f : String → List Device) (l : List String)
    (acc : List (String × List Device)) (k : String) :
    dictLookup k (l.foldl (fun a s => dictInsert s (f s) a) acc) =
      if k ∈ l then some (f k) else dictLookup k acc := by
  induction l generalizing acc with
  | nil => simp
  | cons s rest ih =>
    simp only [List.foldl_cons]
    rw [ih]
    by_cases hr : k ∈ rest
    · simp [hr, List.mem_cons]
    · rw [dictLookup_dictInsert]
      by_cases hs : s = k
      · subst hs
        simp [hr, List.mem_cons]
      · have hks : ¬k = s := fun hh => hs hh.symm
        simp [hr, hs, hks, List.mem_cons]

theorem mem_dictInsert (p : String × List Device) (k : String) (v : List Device)
    (l : List (String × List Device)) (h : p ∈ dictInsert k v l) :
    p = (k, v) ∨ p ∈ l := by
  induction l with
  | nil => simpa [dictInsert] using h
  | cons q rest ih =>
    obtain ⟨k', v'⟩ := q
    by_cases hk : k' = k
    · simp only [dictInsert] at h
      rw [if_pos hk] at h
      rcases List.mem_cons.mp h with h1 | h1
      · exact Or.inl h1
      · exact Or.inr (List.mem_cons_of_mem _ h1)
    · simp only [dictInsert] at h
      rw [if_neg hk] at h
      rcases List.mem_cons.mp h with h1 | h1
      · exact Or.inr (List.mem_cons.mpr (Or.inl h1))
      · rcases ih h1 with h2 | h2
        · exact Or.inl h2
        · exact Or.inr (List.mem_cons_of_mem _ h2)

theorem scan_subnets_keys_aux (f : String → List Device) (l : List String)
    (acc : List (String × List Device)) (p : String × List Device)
    (hp : p ∈ l.foldl (fun a s => dictInsert s (f s) a) acc) :
    p.1 ∈ l ∨ p ∈ acc := by
  induction l generalizing acc with
  | nil => exact Or.inr hp
  | cons s rest ih =>
    simp only [List.foldl_cons] at hp
    rcases ih (dictInsert s (f s) acc) hp with h | h
    · exact Or.inl (List.mem_cons_of_mem _ h)
    · rcases mem_dictInsert p s (f s) acc h with h' | h'
      · exact Or.inl (by simp [h'])
      · exact Or.inr h'

theorem identify_vendor_eq_find (check : String → Option Nat) (urls : List String) :
    identify_vendor check urls =
      match urls.find? (checkOk check) with
      | none => ("Unknown", none)
      | some url => ((matchVendor url).getD "Unknown", some url) := by
  induction urls with
  | nil => rfl
  | cons u rest ih =>
    simp only [identify_vendor, List.find?]
    cases hc : check (probeTransform u) with
    | none =>
      have : checkOk check u = false := by simp [checkOk, hc]
      rw [this, ih]
    | some st =>
      by_cases hlt : st < 500
      · have : checkOk check u = true := by simp [checkOk, hc, hlt]
        rw [this]
        simp only [hlt, if_pos]
        cases matchVendor u <;> simp [Option.getD]
      · have : checkOk check u = false := by simp [checkOk, hc, hlt]
        rw [this, ih]
        simp [hlt]

/-! ## Claim theorems -/

/-- Claim C1: `_scan_subnet` gates per-host scanning with a counting
semaphore of size `max_concurrent`: in every configuration reachable from
the initial one (semaphore full, every host task waiting), at most
`limit` host-level probe chains are running, whatever the number `n` of
usable host addresses. -/
theorem C1_semaphore_bounds_concurrency (limit n : Nat) (s : ScanState)
    (h : Relation.ReflTransGen ScanStep (initScanState limit n) s) :
    runningCount s.tasks ≤ limit := by
  have key : runningCount s.tasks + s.sem = limit := by
    induction h with
    | refl => simp [initScanState, runningCount_replicate_waiting]
    | tail _ step ih => rw [scanStep_invariant step]; exact ih
  omega

/-- Witness for C1: with limit 2 and 3 host tasks, after one task has
acquired the semaphore the bound holds. -/
theorem C1_semaphore_bounds_concurrency_witness :
    runningCount ((initScanState 2 3).tasks.set 0 .running) ≤ 2 :=
  C1_semaphore_bounds_concurrency 2 3
    ⟨(initScanState 2 3).sem - 1, (initScanState 2 3).tasks.set 0 .running⟩
    (Relation.ReflTransGen.single (ScanStep.acquire _ 0 rfl (by decide)))

/-- Claim C2 counterexample: `_add_authentication` applied to a URL that
already carries embedded credentials does not leave the credentials part
unchanged — it injects a second `username:password@` right after the
scheme. -/
theorem C2_add_authentication_counterexample :
    add_authentication "rtsp://admin:pw@1.2.3.4:554/stream1" "admin" "pw" =
        "rtsp://admin:pw@admin:pw@1.2.3.4:554/stream1" ∧
      add_authentication "rtsp://admin:pw@1.2.3.4:554/stream1" "admin" "pw" ≠
        "rtsp://admin:pw@1.2.3.4:554/stream1" := by
  constructor
  · decide
  · decide

/-- Claim C2 (amended): the concrete rewrite holds, and for every URL of
the form `scheme://rest` (scheme free of `:`), `_add_authentication`
unconditionally splices `username:password@` after the scheme — also when
`rest` already starts with embedded credentials. -/
theorem C2_add_authentication_amended :
    (add_authentication "rtsp://1.2.3.4:554/stream1" "admin" "pw" =
        "rtsp://admin:pw@1.2.3.4:554/stream1") ∧
      ∀ scheme rest username password : String, ':' ∉ scheme.data →
        add_authentication (scheme ++ "://" ++ rest) username password =
          scheme ++ "://" ++ username ++ ":" ++ password ++ "@" ++ rest := by
  constructor
  · decide
  · intro scheme rest username password h
    have hdata : (scheme ++ "://" ++ rest).data =
        scheme.data ++ [':', '/', '/'] ++ rest.data := by
      simp [String.data_append]
    rw [add_authentication, hdata]
    have hsep : "://".data = [':', '/', '/'] := rfl
    rw [hsep, splitOnce_scheme scheme.data rest.data h]
    apply String.ext
    simp [String.data_append]

/-- Witness for C2 (amended): the general always-inject rule applied at
the claim's concrete input. -/
theorem C2_add_authentication_amended_witness :
    add_authentication ("rtsp" ++ "://" ++ "1.2.3.4:554/stream1") "admin" "pw" =
      "rtsp" ++ "://" ++ "admin" ++ ":" ++ "pw" ++ "@" ++ "1.2.3.4:554/stream1" :=
  C2_add_authentication_amended.2 "rtsp" "1.2.3.4:554/stream1" "admin" "pw" (by decide)

/-- Claim C3 counterexample: with a probe stub that always times out and
`retries = 3`, `validate_rtsp_stream` does return `is_valid = false`
after exactly `retries` full sweeps, but the error message is the
constant "All validation attempts failed", which does not indicate a
timeout. -/
theorem C3_timeout_message_counterexample :
    (validate_rtsp_stream timeoutProbe 3 "1.2.3.4" none none none).1.error_message =
        some "All validation attempts failed" ∧
      mentionsTimeout "All validation attempts failed" = false ∧
      mentionsTimeout "Timeout during stream validation" = true := by
  have hall : ∀ u, (timeoutProbe u).is_valid = false := fun _ => rfl
  refine ⟨?_, by decide, by decide⟩
  rw [validate_rtsp_stream]
  simp only [optTruthy]
  rw [runAttempts_all_invalid _ _ _ _ _ hall]

/-- Claim C3 (amended): when every probe of every candidate fails,
`validate_rtsp_stream` performs exactly `retries` full sweeps over the
15-entry candidate list (`retries * 15` probe invocations) and returns
`is_valid = false` with the generic message "All validation attempts
failed" (the message does not mention the timeout). -/
theorem C3_bounded_retries_amended (probe : String → ProbeResult)
    (retries : Nat) (ip : String)
    (h : ∀ u, (probe u).is_valid = false) :
    validate_rtsp_stream probe retries ip none none none =
      (⟨ip, false, none, none, none, none, some "All validation attempts failed"⟩,
        retries * 15) := by
  rw [validate_rtsp_stream]
  simp only [optTruthy]
  rw [runAttempts_all_invalid _ _ _ _ _ h]
  rfl

/-- Witness for C3 (amended): the always-timeout stub with 2 retries
makes 30 probe calls and yields the generic failure. -/
theorem C3_bounded_retries_amended_witness :
    validate_rtsp_stream timeoutProbe 2 "10.0.0.5" none none none =
      (⟨"10.0.0.5", false, none, none, none, none,
        some "All validation attempts failed"⟩, 2 * 15) :=
  C3_bounded_retries_amended timeoutProbe 2 "10.0.0.5" (fun _ => rfl)

/-- Claim C4 counterexample: a primary `r_frame_rate` that contains "/"
but whose pieces are not integers does not fall back to `avg_frame_rate`
— the `ValueError` is caught at function level and `_calculate_fps`
returns `None`, where the claim's fallback reading (`specFps`) would
return 25. -/
theorem C4_fps_fallback_counterexample :
    calculate_fps ⟨none, none, none, none, some "a/b", some "25/1"⟩ = none ∧
      specFps ⟨none, none, none, none, some "a/b", some "25/1"⟩ = some 25 := by
  constructor
  · decide
  · decide

/-- Claim C4 (amended): `_calculate_fps` parses "num/den" from
`r_frame_rate` and returns `round(num/den)` when the denominator is
positive; it falls back to `avg_frame_rate` when the primary field is
absent, empty, lacks "/", or has a non-positive denominator; but a
primary field containing "/" that fails to parse as exactly two integers
yields an absent fps without consulting the fallback; when both paths
produce nothing the fps is absent, never an exception.  The claim's
examples hold. -/
theorem C4_fps_amended :
    (calculate_fps ⟨none, none, none, none, some "30/1", none⟩ = some 30) ∧
      (calculate_fps ⟨none, none, none, none, none, some "25/1"⟩ = some 25) ∧
      (calculate_fps ⟨none, none, none, none, some "invalid", some "25/1"⟩ = some 25) ∧
      (calculate_fps ⟨none, none, none, none, some "invalid", none⟩ = none) ∧
      (∀ vs s n d, vs.r_frame_rate = some s → s ≠ "" →
        pyHasSub ['/'] s.data = true → parseRational s.data = some (n, d) → 0 < d →
        calculate_fps vs = some (pyRound n d)) ∧
      (∀ vs s, vs.r_frame_rate = some s → s ≠ "" →
        pyHasSub ['/'] s.data = true → parseRational s.data = none →
        calculate_fps vs = none) := by
  refine ⟨by decide, by decide, by decide, by decide, ?_, ?_⟩
  · intro vs s n d hs hne hslash hparse hd
    rw [calculate_fps, hs]
    rw [fpsFromField]
    simp [hne, hslash, hparse, hd]
  · intro vs s hs hne hslash hparse
    rw [calculate_fps, hs]
    rw [fpsFromField]
    simp [hne, hslash, hparse]

/-- Witness for C4 (amended): the positive-denominator rule applied to
the NTSC rate 24000/1001 gives 24. -/
theorem C4_fps_amended_witness :
    calculate_fps ⟨none, none, none, none, some "24000/1001", none⟩ = some 24 := by
  have h := C4_fps_amended.2.2.2.2.1 ⟨none, none, none, none, some "24000/1001", none⟩
    "24000/1001" 24000 1001 rfl (by decide) (by decide) (by decide) (by decide)
  rw [h]
  decide

/-- Claim C5: whenever the liveness probe for the device's address fails,
`validate_device_health` returns the UNREACHABLE verdict and invokes the
stream validator zero times, whether or not the device carries a cached
`rtsp_url`. -/
theorem C5_unreachable_precedence (reachable : String → Bool)
    (validator : String → Option String → ValResult) (d : DeviceInfo)
    (ip : String) (hip : d.ip_address = some ip) (hne : ip ≠ "")
    (hun : reachable ip = false) :
    validate_device_health reachable validator d =
      (.UNREACHABLE, some "Device not reachable", 0) := by
  rw [validate_device_health, hip]
  simp [optTruthy, hne, hun]

/-- Witness for C5: an unreachable device with a cached URL. -/
theorem C5_unreachable_precedence_witness :
    validate_device_health (fun _ => false)
        (fun ip u => ⟨ip, true, u, none, none, none, none⟩)
        ⟨some "10.0.0.7", some "rtsp://10.0.0.7:554/stream1"⟩ =
      (.UNREACHABLE, some "Device not reachable", 0) :=
  C5_unreachable_precedence _ _ _ "10.0.0.7" rfl (by decide) rfl

/-- Claim C6: `scan_subnets` maps every input subnet to an entry; a
subnet whose scan raised (parse failure included — `_scan_subnet` turns
it into an empty list, and `asyncio.gather(..., return_exceptions=True)`
turns a raising task into an empty entry) is mapped to the empty device
list; every key of the result is one of the input subnets; and the
coordinator itself is a total function — no subnet's failure aborts the
batch. -/
theorem C6_scan_subnets_isolation (scanSub : String → Except String (List Device))
    (subnets : List String) :
    (∀ s ∈ subnets, dictLookup s (scan_subnets scanSub subnets) =
        some (subnetResult scanSub s)) ∧
      (∀ s e, s ∈ subnets → scanSub s = .error e →
        dictLookup s (scan_subnets scanSub subnets) = some []) ∧
      (∀ p ∈ scan_subnets scanSub subnets, p.1 ∈ subnets) := by
  refine ⟨?_, ?_, ?_⟩
  · intro s hs
    rw [scan_subnets, scan_subnets_lookup_aux]
    simp [hs]
  · intro s e hs herr
    rw [scan_subnets, scan_subnets_lookup_aux]
    simp [hs, subnetResult, herr]
  · intro p hp
    rcases scan_subnets_keys_aux (subnetResult scanSub) subnets [] p hp with h | h
    · exact h
    · simp at h

/-- Witness for C6: a batch of two subnets where the second scan raises
still yields one entry per subnet, the failed one empty. -/
theorem C6_scan_subnets_isolation_witness :
    dictLookup "10.0.0.0/24"
        (scan_subnets
          (fun s => if s = "bad" then .error "parse" else .ok [("10.0.0.9", [554])])
          ["10.0.0.0/24", "bad"]) =
        some (subnetResult
          (fun s => if s = "bad" then .error "parse" else .ok [("10.0.0.9", [554])])
          "10.0.0.0/24") ∧
      dictLookup "bad"
        (scan_subnets
          (fun s => if s = "bad" then .error "parse" else .ok [("10.0.0.9", [554])])
          ["10.0.0.0/24", "bad"]) = some [] :=
  ⟨(C6_scan_subnets_isolation _ ["10.0.0.0/24", "bad"]).1 "10.0.0.0/24" (by decide),
   (C6_scan_subnets_isolation _ ["10.0.0.0/24", "bad"]).2.1 "bad" "parse" (by decide) rfl⟩

/-- Claim C7 counterexample: host enumeration does not always exclude
the network and broadcast addresses — for the /31 network 192.168.1.0/31
the enumeration is both of its addresses, the network address
192.168.1.0 included. -/
theorem C7_hosts_counterexample :
    hosts (mkIp 192 168 1 0) 31 = [mkIp 192 168 1 0, mkIp 192 168 1 1] ∧
      netAddr (mkIp 192 168 1 0) 31 ∈ hosts (mkIp 192 168 1 0) 31 := by
  constructor
  · decide
  · decide

/-- Claim C7 (amended): for prefix lengths up to /30 the enumeration is
exactly the addresses strictly between the network and broadcast
addresses (both excluded); /31 and /32 networks also enumerate their
boundary addresses.  In particular 192.168.1.0/30 yields exactly
{192.168.1.1, 192.168.1.2}. -/
theorem C7_hosts_amended :
    (hosts (mkIp 192 168 1 0) 30 = [mkIp 192 168 1 1, mkIp 192 168 1 2]) ∧
      ∀ a p, p ≤ 30 →
        ∀ x, x ∈ hosts a p ↔ netAddr a p < x ∧ x < broadcastAddr a p := by
  constructor
  · decide
  · intro a p hp x
    have hb : 4 ≤ blockSize p := by
      have h2 : 2 ≤ 32 - p := by omega
      calc (4 : Nat) = 2 ^ 2 := by norm_num
        _ ≤ 2 ^ (32 - p) := Nat.pow_le_pow_right (by norm_num) h2
        _ = blockSize p := rfl
    rw [hosts, if_neg (by omega)]
    rw [List.mem_range'_1, broadcastAddr]
    omega

/-- Witness for C7 (amended): 10.0.0.6 lies strictly between the network
and broadcast addresses of 10.0.0.5/30 (whose host bits are masked). -/
theorem C7_hosts_amended_witness :
    netAddr (mkIp 10 0 0 5) 30 < mkIp 10 0 0 6 ∧
      mkIp 10 0 0 6 < broadcastAddr (mkIp 10 0 0 5) 30 :=
  (C7_hosts_amended.2 (mkIp 10 0 0 5) 30 (by decide) (mkIp 10 0 0 6)).mp (by decide)

/-- Claim C8: for every HTTP-check oracle, `_identify_vendor` on the
template list for a host returns: the first candidate whose lightweight
check yields a status below 500, together with the vendor whose pattern
matches it — and on these templates the code's table-order match agrees
with the spec's longest-most-specific-pattern rule (`specLongestVendor`);
an unmatched winning candidate would yield "Unknown" with the candidate
URL, and if no template responds the result is ("Unknown", no URL). -/
theorem C8_identify_vendor_first_ok (check : String → Option Nat) :
    identify_vendor check (common_urls "1.2.3.4" 554) =
      match (common_urls "1.2.3.4" 554).find? (checkOk check) with
      | none => ("Unknown", none)
      | some url => ((specLongestVendor url).getD "Unknown", some url) := by
  rw [identify_vendor_eq_find]
  cases hf : (common_urls "1.2.3.4" 554).find? (checkOk check) with
  | none => rfl
  | some url =>
    have hmem : url ∈ common_urls "1.2.3.4" 554 := List.mem_of_find?_eq_some hf
    have hagree : matchVendor url = specLongestVendor url := by
      fin_cases hmem <;> decide
    show ((matchVendor url).getD "Unknown", some url) =
      ((specLongestVendor url).getD "Unknown", some url)
    rw [hagree]

/-- Claim C9: a host that fails the reachability probe triggers no port
scan, no vendor identification, and contributes no device descriptor —
`_scan_single_ip` short-circuits right after the failed liveness
check. -/
theorem C9_unreachable_no_downstream (reachable : String → Bool)
    (portScan : String → List Nat) (hostname : String → String)
    (vendor : String → Nat → String × Option String) (ip : String)
    (h : reachable ip = false) :
    scan_single_ip reachable portScan hostname vendor ip = ⟨none, 0, 0⟩ := by
  rw [scan_single_ip, h]
  rfl

/-- Witness for C9: a concrete unreachable host with oracles that would
answer if consulted. -/
theorem C9_unreachable_no_downstream_witness :
    scan_single_ip (fun _ => false) (fun _ => [554, 8554]) (fun _ => "cam01")
        (fun ip _ => ("Hikvision", some ("rtsp://" ++ ip ++ ":554/live/ch0")))
        "192.168.1.64" =
      ⟨none, 0, 0⟩ :=
  C9_unreachable_no_downstream _ _ _ _ "192.168.1.64" rfl

/-- Claim C10: whenever the parsed probe output contains a stream with
codec_type "video", the probe result is valid and carries resolution and
codec as present strings, substituting the literal "unknown" for a
missing width, height, or codec_name (a stream record with none of them
yields resolution "unknownxunknown" and codec "unknown"). -/
theorem C10_unknown_substitution (streams : List StreamEntry)
    (h : ∃ s ∈ streams, s.codec_type = some "video") :
    (parseProbeStreams streams).is_valid = true ∧
      ∃ vs, findVideo streams = some vs ∧
        (parseProbeStreams streams).resolution =
          some (renderDim vs.width ++ "x" ++ renderDim vs.height) ∧
        (parseProbeStreams streams).codec = some (vs.codec_name.getD "unknown") ∧
        (vs.width = none → vs.height = none →
          (parseProbeStreams streams).resolution = some "unknownxunknown") ∧
        (vs.codec_name = none → (parseProbeStreams streams).codec = some "unknown") := by
  obtain ⟨vs, hvs⟩ := findVideo_of_mem streams h
  rw [parseProbeStreams, hvs]
  refine ⟨rfl, vs, rfl, rfl, rfl, ?_, ?_⟩
  · intro hw hh
    show some (renderDim vs.width ++ "x" ++ renderDim vs.height) = some "unknownxunknown"
    rw [hw, hh]
    rfl
  · intro hc
    show some (vs.codec_name.getD "unknown") = some "unknown"
    rw [hc]
    rfl

/-- Witness for C10: a video stream lacking width, height, and
codec_name validates with the "unknown" substitutions. -/
theorem C10_unknown_substitution_witness :
    (parseProbeStreams [⟨some "video", none, none, none, none, none⟩]).is_valid = true ∧
      ∃ vs, findVideo [(⟨some "video", none, none, none, none, none⟩ : StreamEntry)] =
          some vs ∧
        (parseProbeStreams [⟨some "video", none, none, none, none, none⟩]).resolution =
          some (renderDim vs.width ++ "x" ++ renderDim vs.height) ∧
        (parseProbeStreams [⟨some "video", none, none, none, none, none⟩]).codec =
          some (vs.codec_name.getD "unknown") ∧
        (vs.width = none → vs.height = none →
          (parseProbeStreams [⟨some "video", none, none, none, none, none⟩]).resolution =
            some "unknownxunknown") ∧
        (vs.codec_name = none →
          (parseProbeStreams [⟨some "video", none, none, none, none, none⟩]).codec =
            some "unknown") :=
  C10_unknown_substitution [⟨some "video", none, none, none, none, none⟩]
    ⟨⟨some "video", none, none, none, none, none⟩, List.mem_singleton.mpr rfl, rfl⟩

end VAS
